import Mathlib

/-!
Shallow embedding of the Ambiance audio-mixer core.

The repository contains two mixer implementations:

* the eager `Mixer` component embedded in `main.tsx` (builds every
  player/panner pair up front inside a `useEffect`, routing
  `Player → Panner → Reverb → Channel → destination`), and
* the lazy `MixerPage` component in `src/components/MixerPage.tsx`
  (tracks start with `player = null` / `panner = null`; the node pair is
  allocated on the first `togglePlayback`, routing
  `Player → Panner → destination` with no reverb).

Volumes and pans are JS numbers; the mixer only ever stores and compares
them, so they are modelled as `ℚ`.  The one transcendental operation,
`Tone.gainToDb`, is modelled exactly (over `ℝ`) in `gainToDb` below.
-/

namespace Ambiance

/-- Clamp as the specification words it ("out-of-range input is clamped"):
`clamp v lo hi = max lo (min hi v)`.  This definition follows the spec, not
the source — the source has no clamping — and exists to compare the two. -/
def specClamp (v lo hi : ℚ) : ℚ := max lo (min hi v)

/-- Identities of the audio nodes a given node's output can be connected to.
`pannerOf i` is the pan node allocated for track `i`; `reverb` is the single
shared `Tone.Reverb(3)`; `channel` the master `Tone.Channel`; `destination`
the context destination (`toDestination()`). -/
inductive NodeRef where
  | pannerOf (i : ℕ)
  | reverb
  | channel
  | destination
  deriving DecidableEq

/-- Model of `Tone.gainToDb(gain) = 20 * Math.log10(gain)` (Tone.js
`core/type/Conversions`).  `some d` is the finite JS number `d`; `none`
encodes the non-finite results: `-Infinity` for `gain = 0` (the value the
source actually writes into `player.volume.value` for a zero volume) and
`NaN` for negative gain (never produced by the UI sliders). -/
noncomputable def gainToDb (v : ℚ) : Option ℝ :=
  if 0 < v then some (20 * Real.logb 10 (v : ℝ)) else none

/-- Model of `Tone.dbToGain(db) = 10 ^ (db / 20)`, the linear gain a stored
decibel value is rendered at; `-Infinity` (`none`) renders as gain `0`. -/
noncomputable def dbToGain (d : Option ℝ) : ℝ :=
  match d with
  | none => 0
  | some x => (10 : ℝ) ^ (x / 20)

/-- JS in-place element update `l[i] = f(l[i])`.  Out-of-range indices are
left unchanged; the source only ever passes indices of existing tracks
(the sliders are rendered per existing track). -/
def listModify {α : Type} : List α → ℕ → (α → α) → List α
  | [], _, _ => []
  | a :: as, 0, f => f a :: as
  | a :: as, n + 1, f => a :: listModify as n f

/-! ## The eager mixer of `main.tsx` -/

/-- One entry of `sound_elements` as consumed by the `Mixer` component:
`name`, `description` and the generation-time `parameters.volume` /
`parameters.pan` (the `effects` list is never read by the mixer). -/
structure SoundElement where
  name : String
  description : String
  volume : ℚ
  pan : ℚ
  deriving DecidableEq

/-- A `Tone.Player` as the mixer uses it.  `volumeGain` records the linear
gain `g` whose decibel image is held by the player's `volume` parameter:
every write in the source has the shape `volume.value = Tone.gainToDb(g)`
(or `volume: Tone.gainToDb(g)` at construction), so the parameter's actual
value is recovered by `playerDb` below. -/
structure MPlayer where
  url : String
  loop : Bool
  volumeGain : ℚ
  playing : Bool
  out : NodeRef
  deriving DecidableEq

/-- The decibel value held by the player's `volume` parameter. -/
noncomputable def playerDb (p : MPlayer) : Option ℝ := gainToDb p.volumeGain

/-- A `Tone.Panner` as the mixer uses it: its `pan` parameter (written
directly, no conversion) and the node its output is connected to. -/
structure MPanner where
  pan : ℚ
  out : NodeRef
  deriving DecidableEq

/-- One `{ player, panner }` entry of the `players.current` ref. -/
structure MTrack where
  player : MPlayer
  panner : MPanner
  deriving DecidableEq

/-- State of the `Mixer` component in `main.tsx`: the `volumes` and `pans`
React state arrays, the `players.current` ref, the fixed output connections
of the shared reverb and master channel, and the `isPlaying` flag. -/
structure MixerState where
  volumes : List ℚ
  pans : List ℚ
  tracks : List MTrack
  reverbOut : NodeRef
  channelOut : NodeRef
  isPlaying : Bool
  deriving DecidableEq

/-- Default `MTrack` used only as the `List.getD` fallback in statements
whose hypotheses put the index in range. -/
def dTrack : MTrack :=
  { player := { url := "", loop := false, volumeGain := 0, playing := false,
                out := NodeRef.destination }
    panner := { pan := 0, out := NodeRef.destination } }

/-- The `Mixer` mount effect of `main.tsx` (lines 122–156): `volumes` and
`pans` are seeded from `soundElements[].parameters`;
`barCount = Math.min(audioUrls.length, soundElements.length)`;
`players.current = audioUrls.slice(0, barCount).map((url, i) => ...)` builds
one looping player per kept URL with `volume: Tone.gainToDb(volumes[i])`,
one panner with `pans[i]`, connected `player → panner → reverb → channel`,
with `channel.toDestination()`.  `isPlaying` starts `false`. -/
def buildMixer (audioUrls : List String) (soundElements : List SoundElement) :
    MixerState :=
  let volumes := soundElements.map fun el => el.volume
  let pans := soundElements.map fun el => el.pan
  let barCount := min audioUrls.length soundElements.length
  { volumes := volumes
    pans := pans
    tracks := (audioUrls.take barCount).enum.map fun p =>
      { player := { url := p.2, loop := true, volumeGain := volumes.getD p.1 0,
                    playing := false, out := NodeRef.pannerOf p.1 }
        panner := { pan := pans.getD p.1 0, out := NodeRef.reverb } }
    reverbOut := NodeRef.channel
    channelOut := NodeRef.destination
    isPlaying := false }

/-- `handleVolumeChange(index, value)` of `main.tsx`: copies `volumes`,
sets `newVolumes[index] = value` (no clamping), and writes
`players.current[index].player.volume.value = Tone.gainToDb(value)`. -/
def mixerSetVolume (s : MixerState) (index : ℕ) (value : ℚ) : MixerState :=
  { s with
    volumes := s.volumes.set index value
    tracks := listModify s.tracks index fun t =>
      { t with player := { t.player with volumeGain := value } } }

/-- `handlePanChange(index, value)` of `main.tsx`: copies `pans`, sets
`newPans[index] = value` (no clamping), and writes
`players.current[index].panner.pan.value = value`. -/
def mixerSetPan (s : MixerState) (index : ℕ) (value : ℚ) : MixerState :=
  { s with
    pans := s.pans.set index value
    tracks := listModify s.tracks index fun t =>
      { t with panner := { t.panner with pan := value } } }

/-- `togglePlay` of `main.tsx`: if playing, `player.stop()` on every track,
else `player.start()` on every track; then `setIsPlaying(!isPlaying)`.
The awaited `Tone.start()` context resume carries no modelled state. -/
def mixerTogglePlay (s : MixerState) : MixerState :=
  if s.isPlaying then
    { s with
      tracks := s.tracks.map fun t =>
        { t with player := { t.player with playing := false } }
      isPlaying := false }
  else
    { s with
      tracks := s.tracks.map fun t =>
        { t with player := { t.player with playing := true } }
      isPlaying := true }

/-- The routing invariant of the eager mixer: track `i`'s player feeds the
track's own panner, every panner feeds the shared reverb, the reverb feeds
the master channel, the channel feeds the destination. -/
def mixerRouted (s : MixerState) : Bool :=
  (s.tracks.enum.all fun p =>
    decide (p.2.player.out = NodeRef.pannerOf p.1) &&
      decide (p.2.panner.out = NodeRef.reverb)) &&
    decide (s.reverbOut = NodeRef.channel) &&
    decide (s.channelOut = NodeRef.destination)

/-! ## The lazy mixer of `src/components/MixerPage.tsx` -/

/-- A `Tone.Player` of `MixerPage`.  `url` is `Option` because the player is
constructed from `element.url`, which is `undefined` (`none`) when the
element's index exceeds `audioUrls.length`.  `disposed` tracks
`player.dispose()`.  `volumeGain` records the linear gain as in `MPlayer`. -/
structure PPlayer where
  url : Option String
  volumeGain : ℚ
  playing : Bool
  disposed : Bool
  out : NodeRef
  deriving DecidableEq

/-- A `Tone.Panner` of `MixerPage`, with its disposal flag. -/
structure PPanner where
  pan : ℚ
  disposed : Bool
  out : NodeRef
  deriving DecidableEq

/-- One entry of the `audioElements` state of `MixerPage`: the interface
`AudioElement` of the source (`player`/`panner` start `null`). -/
structure AudioElement where
  name : String
  url : Option String
  player : Option PPlayer
  panner : Option PPanner
  volume : ℚ
  pan : ℚ
  deriving DecidableEq

/-- Default `AudioElement` used only as the `List.getD` fallback in
statements whose hypotheses put the index in range. -/
def dElem : AudioElement :=
  { name := "", url := none, player := none, panner := none,
    volume := 0, pan := 0 }

/-- The element construction in the `MixerPage` mount effect (lines 29–36):
`soundElements.map((element, index) => ({ name: element,
url: audioUrls[index], player: null, panner: null, volume: 0, pan: 0 }))`.
Note there is no truncation: one element per entry of `soundElements`,
with `url = undefined` (`none`) past the end of `audioUrls`. -/
def mixerPageInit (soundElements audioUrls : List String) :
    List AudioElement :=
  soundElements.enum.map fun p =>
    { name := p.2, url := audioUrls[p.1]?, player := none, panner := none,
      volume := 0, pan := 0 }

/-- A `MixerPage` session.  `elements` is the current `audioElements`
state; `isPlaying` the transport flag; `effectCaptured` is the
`audioElements` value the mount effect's closure sees. -/
structure PageSession where
  effectCaptured : List AudioElement
  elements : List AudioElement
  isPlaying : Bool
  deriving DecidableEq

/-- Mounting `MixerPage` (the `useEffect` with `[]` deps, lines 20–51).
At the first render `audioElements` is the `useState` initial value `[]`;
the effect builds the elements from the navigation state and stores them
via `setAudioElements`.  The cleanup returned by that effect closes over
the `audioElements` binding of the first render — the initial empty list —
and, with `[]` deps, the effect never re-runs; so the snapshot the cleanup
will iterate (`effectCaptured`) is `[]`, regardless of the elements just
created. -/
def mixerPageMount (soundElements audioUrls : List String) : PageSession :=
  { effectCaptured := []
    elements := mixerPageInit soundElements audioUrls
    isPlaying := false }

/-- `handleVolumeChange(index, value)` of `MixerPage`: replaces element
`index` by `{ ...old, volume: value }` (no clamping) and, when a live
player exists, writes `player.volume.value = Tone.gainToDb(value)`. -/
def pageSetVolume (s : PageSession) (index : ℕ) (value : ℚ) : PageSession :=
  { s with
    elements := listModify s.elements index fun e =>
      { e with
        volume := value
        player := e.player.map fun pl => { pl with volumeGain := value } } }

/-- `handlePanChange(index, value)` of `MixerPage`: replaces element
`index` by `{ ...old, pan: value }` (no clamping) and, when a live panner
exists, writes `panner.pan.value = value`. -/
def pageSetPan (s : PageSession) (index : ℕ) (value : ℚ) : PageSession :=
  { s with
    elements := listModify s.elements index fun e =>
      { e with
        pan := value
        panner := e.panner.map fun pn => { pn with pan := value } } }

/-- The per-element body of `togglePlayback` when starting: if the element
has no player, allocate `new Tone.Player(element.url)` and
`new Tone.Panner(element.pan).toDestination()`, connect player → panner,
set `player.volume.value = Tone.gainToDb(element.volume)` and start it;
otherwise just `element.player.start()`. -/
def instantiateElement (i : ℕ) (e : AudioElement) : AudioElement :=
  match e.player with
  | none =>
      { e with
        player := some { url := e.url, volumeGain := e.volume,
                         playing := true, disposed := false,
                         out := NodeRef.pannerOf i }
        panner := some { pan := e.pan, disposed := false,
                         out := NodeRef.destination } }
  | some pl => { e with player := some { pl with playing := true } }

/-- `togglePlayback` of `MixerPage`: when stopped, run
`instantiateElement` over every element and set `isPlaying = true`; when
playing, `player.stop()` on every live player and set `isPlaying = false`. -/
def pageToggle (s : PageSession) : PageSession :=
  if s.isPlaying then
    { s with
      elements := s.elements.map fun e =>
        { e with player := e.player.map fun pl => { pl with playing := false } }
      isPlaying := false }
  else
    { s with
      elements := s.elements.enum.map fun p => instantiateElement p.1 p.2
      isPlaying := true }

/-- `element.player.dispose(); element.panner.dispose()` on one element. -/
def disposeElement (e : AudioElement) : AudioElement :=
  { e with
    player := e.player.map fun pl => { pl with disposed := true }
    panner := e.panner.map fun pn => { pn with disposed := true } }

/-- Unmounting `MixerPage`: the effect cleanup runs
`audioElements.forEach(... dispose ...)` over the snapshot its closure
captured (`effectCaptured`), not over the current `elements`. -/
def mixerPageUnmount (s : PageSession) : PageSession :=
  { s with effectCaptured := s.effectCaptured.map disposeElement }

/-- Number of allocated, not-yet-disposed node handles on one element. -/
def elementLiveHandles (e : AudioElement) : ℕ :=
  (match e.player with
   | some pl => if pl.disposed then 0 else 1
   | none => 0) +
  (match e.panner with
   | some pn => if pn.disposed then 0 else 1
   | none => 0)

/-- Number of live node handles across a track set. -/
def liveHandles (l : List AudioElement) : ℕ :=
  (l.map elementLiveHandles).sum

/-- Whether an element currently has a playing player. -/
def elementPlaying (e : AudioElement) : Bool :=
  match e.player with
  | some pl => pl.playing
  | none => false

/-- Sample sound element used to instantiate universally quantified
theorems at a concrete state. -/
def elWind : SoundElement :=
  { name := "Wind", description := "breeze", volume := 1, pan := 0 }

/-- Default `SoundElement` used only as a `List.getD` fallback. -/
def dSElem : SoundElement :=
  { name := "", description := "", volume := 0, pan := 0 }

/-- The decibel value held by a `MixerPage` player's `volume` parameter
(same reading convention as `playerDb`). -/
noncomputable def pagePlayerDb (p : PPlayer) : Option ℝ := gainToDb p.volumeGain

/-- Second sample sound element. -/
def elRain : SoundElement :=
  { name := "Rain", description := "drizzle", volume := 1, pan := -1 }

/-- Concrete two-track eager-mixer state used to instantiate theorems. -/
def mixTwo : MixerState := buildMixer ["a.mp3", "b.mp3"] [elWind, elRain]

/-- Concrete two-track `MixerPage` session used to instantiate theorems. -/
def pageTwo : PageSession := mixerPageMount ["Wind", "Rain"] ["a.mp3", "b.mp3"]

/-! ## General lemmas about the embedding -/

theorem listModify_length {α : Type} (l : List α) (i : ℕ) (f : α → α) :
    (listModify l i f).length = l.length := by
  induction l generalizing i with
  | nil => rfl
  | cons a as ih => cases i <;> simp [listModify, ih]

theorem listModify_getElem?_self {α : Type} (l : List α) (i : ℕ) (f : α → α) :
    (listModify l i f)[i]? = l[i]?.map f := by
  induction l generalizing i with
  | nil => simp [listModify]
  | cons a as ih => cases i <;> simp [listModify, ih]

theorem listModify_getElem?_ne {α : Type} (l : List α) (i j : ℕ) (f : α → α)
    (h : j ≠ i) : (listModify l i f)[j]? = l[j]? := by
  induction l generalizing i j with
  | nil => rfl
  | cons a as ih =>
    cases i with
    | zero =>
      cases j with
      | zero => exact absurd rfl h
      | succ j => simp [listModify]
    | succ i =>
      cases j with
      | zero => simp [listModify]
      | succ j => simpa [listModify] using ih i j (fun hji => h (by simp [hji]))

theorem dbToGain_gainToDb {v : ℚ} (hv : 0 < v) : dbToGain (gainToDb v) = (v : ℝ) := by
  have hv' : (0 : ℝ) < (v : ℝ) := by exact_mod_cast hv
  rw [gainToDb, if_pos hv]
  show (10 : ℝ) ^ (20 * Real.logb 10 (v : ℝ) / 20) = (v : ℝ)
  rw [mul_div_cancel_left₀ _ (by norm_num : (20 : ℝ) ≠ 0)]
  exact Real.rpow_logb (by norm_num) (by norm_num) hv'

theorem map_getD_of_lt {α β : Type} (f : α → β) (l : List α) (i : ℕ) (d : β)
    (d0 : α) (h : i < l.length) : (l.map f).getD i d = f (l.getD i d0) := by
  rw [List.getD_eq_getElem (l := l.map f) (d := d) (by simpa using h),
    List.getD_eq_getElem (l := l) (d := d0) h, List.getElem_map]

theorem buildMixer_tracks_length (u : List String) (e : List SoundElement) :
    (buildMixer u e).tracks.length = min u.length e.length := by
  simp only [buildMixer, List.length_map, List.enum_length, List.length_take]
  omega

theorem buildMixer_tracks_getElem? (u : List String) (e : List SoundElement)
    (i : ℕ) (hi : i < min u.length e.length) :
    (buildMixer u e).tracks[i]? =
      some { player := { url := u.getD i "", loop := true,
                         volumeGain := (e.map fun el => el.volume).getD i 0,
                         playing := false, out := NodeRef.pannerOf i }
             panner := { pan := (e.map fun el => el.pan).getD i 0,
                         out := NodeRef.reverb } } := by
  have h1 : i < u.length := lt_of_lt_of_le hi (min_le_left _ _)
  simp only [buildMixer, List.getElem?_map, List.getElem?_enum, List.getElem?_take,
    if_pos hi, List.getElem?_eq_getElem h1, Option.map_some]
  rw [List.getD_eq_getElem (l := u) (d := "") h1]
  rfl

theorem mixerPageInit_length (names urls : List String) :
    (mixerPageInit names urls).length = names.length := by
  simp [mixerPageInit, List.length_map, List.enum_length]

theorem mixerPageInit_getElem? (names urls : List String) (j : ℕ) :
    (mixerPageInit names urls)[j]? =
      names[j]?.map fun nm =>
        { name := nm, url := urls[j]?, player := none, panner := none,
          volume := 0, pan := 0 } := by
  simp only [mixerPageInit, List.getElem?_map, List.getElem?_enum, Option.map_map]
  cases names[j]? <;> rfl

theorem mixerRouted_iff (s : MixerState) :
    mixerRouted s = true ↔
      ((∀ i t, s.tracks[i]? = some t →
          t.player.out = NodeRef.pannerOf i ∧ t.panner.out = NodeRef.reverb) ∧
        s.reverbOut = NodeRef.channel ∧ s.channelOut = NodeRef.destination) := by
  unfold mixerRouted
  simp only [Bool.and_eq_true, List.all_eq_true, decide_eq_true_eq]
  constructor
  · rintro ⟨⟨hall, h1⟩, h2⟩
    refine ⟨?_, h1, h2⟩
    intro i t ht
    have hmem : (i, t) ∈ s.tracks.enum := by
      rw [List.mem_enum_iff_getElem?]
      exact ht
    simpa using hall (i, t) hmem
  · rintro ⟨hall, h1, h2⟩
    refine ⟨⟨?_, h1⟩, h2⟩
    intro p hp
    rw [List.mem_enum_iff_getElem?] at hp
    have h := hall p.1 p.2 hp
    simp [h.1, h.2]

theorem mixerRouted_build (u : List String) (e : List SoundElement) :
    mixerRouted (buildMixer u e) = true := by
  rw [mixerRouted_iff]
  refine ⟨?_, rfl, rfl⟩
  intro i t ht
  by_cases hib : i < min u.length e.length
  · rw [buildMixer_tracks_getElem? u e i hib] at ht
    cases ht
    exact ⟨rfl, rfl⟩
  · have hlen : (buildMixer u e).tracks.length ≤ i := by
      rw [buildMixer_tracks_length]
      omega
    rw [List.getElem?_eq_none hlen] at ht
    cases ht

theorem mixerRouted_setVolume (s : MixerState) (i : ℕ) (v : ℚ)
    (h : mixerRouted s = true) : mixerRouted (mixerSetVolume s i v) = true := by
  rw [mixerRouted_iff] at h ⊢
  obtain ⟨hall, h1, h2⟩ := h
  refine ⟨?_, h1, h2⟩
  intro j t ht
  simp only [mixerSetVolume] at ht
  by_cases hji : j = i
  · subst hji
    rw [listModify_getElem?_self] at ht
    cases htj : s.tracks[j]? with
    | none => rw [htj] at ht; cases ht
    | some t0 =>
      rw [htj] at ht
      cases ht
      exact hall j t0 htj
  · rw [listModify_getElem?_ne _ _ _ _ hji] at ht
    exact hall j t ht

theorem mixerRouted_setPan (s : MixerState) (i : ℕ) (v : ℚ)
    (h : mixerRouted s = true) : mixerRouted (mixerSetPan s i v) = true := by
  rw [mixerRouted_iff] at h ⊢
  obtain ⟨hall, h1, h2⟩ := h
  refine ⟨?_, h1, h2⟩
  intro j t ht
  simp only [mixerSetPan] at ht
  by_cases hji : j = i
  · subst hji
    rw [listModify_getElem?_self] at ht
    cases htj : s.tracks[j]? with
    | none => rw [htj] at ht; cases ht
    | some t0 =>
      rw [htj] at ht
      cases ht
      exact hall j t0 htj
  · rw [listModify_getElem?_ne _ _ _ _ hji] at ht
    exact hall j t ht

theorem mixerRouted_toggle (s : MixerState)
    (h : mixerRouted s = true) : mixerRouted (mixerTogglePlay s) = true := by
  rw [mixerRouted_iff] at h ⊢
  obtain ⟨hall, h1, h2⟩ := h
  unfold mixerTogglePlay
  by_cases hp : s.isPlaying <;>
      simp only [hp, if_true, if_false, Bool.false_eq_true] <;>
      refine ⟨?_, h1, h2⟩ <;>
      intro j t ht <;>
      rw [List.getElem?_map] at ht <;>
      cases htj : s.tracks[j]? with
    | _ => ?_
  all_goals rw [htj] at ht
  case neg.none => cases ht
  case pos.none => cases ht
  all_goals cases ht
  all_goals simpa using hall j _ htj

theorem mixerToggle_all_playing (s : MixerState) (h : s.isPlaying = false) :
    ((mixerTogglePlay s).tracks.all fun t => t.player.playing) = true := by
  unfold mixerTogglePlay
  rw [h]
  simp only [Bool.false_eq_true, if_false, List.all_eq_true]
  intro t ht
  rw [List.mem_map] at ht
  obtain ⟨t0, _, rfl⟩ := ht
  rfl

theorem pageToggle_all_playing (s : PageSession) (h : s.isPlaying = false) :
    ((pageToggle s).elements.all elementPlaying) = true := by
  unfold pageToggle
  rw [h]
  simp only [Bool.false_eq_true, if_false, List.all_eq_true]
  intro e he
  rw [List.mem_map] at he
  obtain ⟨p, _, rfl⟩ := he
  unfold instantiateElement elementPlaying
  cases p.2.player <;> rfl

theorem buildMixer_loop (u : List String) (e : List SoundElement) {t : MTrack}
    (ht : t ∈ (buildMixer u e).tracks) : t.player.loop = true := by
  simp only [buildMixer, List.mem_map] at ht
  obtain ⟨q, _, rfl⟩ := ht
  rfl

theorem set_getD_of_lt {α : Type} (l : List α) (i : ℕ) (v d : α)
    (h : i < l.length) : (l.set i v).getD i d = v := by
  rw [List.getD_eq_getElem?_getD, List.getElem?_set_self h]
  rfl

theorem listModify_getD_of_lt {α : Type} (l : List α) (i : ℕ) (f : α → α)
    (d : α) (h : i < l.length) : (listModify l i f).getD i d = f (l.getD i d) := by
  rw [List.getD_eq_getElem?_getD, listModify_getElem?_self,
    List.getElem?_eq_getElem h, List.getD_eq_getElem l d h]
  rfl

/-! ## Claims -/

/-- Claim C1, counterexample: `setVolume(0, 2)` on the eager mixer stores
volume `2` and writes `gainToDb 2` to the live player — not
`clamp(2, 0, 1) = 1`.  Out-of-range input is stored unclamped, refuting
"the stored volume of track i and the effective linear gain applied to its
live node equal clamp(v, 0, 1)". -/
theorem C1_counterexample :
    (mixerSetVolume (buildMixer ["a.mp3"] [elWind]) 0 2).volumes.getD 0 0 = 2 ∧
    ((mixerSetVolume (buildMixer ["a.mp3"] [elWind]) 0 2).tracks.getD 0
      dTrack).player.volumeGain = 2 ∧
    specClamp 2 0 1 = 1 ∧
    (mixerSetVolume (buildMixer ["a.mp3"] [elWind]) 0 2).volumes.getD 0 0 ≠
      specClamp 2 0 1 := by decide

/-- Claim C1, amended: `setVolume(i, v)` stores `v` exactly as given — no
clamping happens anywhere in the engine (the `[0, 1]` restriction exists
only in the range slider's `min`/`max` attributes) — and writes
`gainToDb v` as the live node's decibel parameter, whose effective linear
gain is `v` itself (not `clamp(v, 0, 1)`) whenever `v > 0`.  This holds for
both the eager mixer (`main.tsx`) and the lazy `MixerPage`. -/
theorem C1_amended (s : MixerState) (ps : PageSession) (i : ℕ) (v : ℚ)
    (hv : i < s.volumes.length) (ht : i < s.tracks.length)
    (hp : i < ps.elements.length) :
    (mixerSetVolume s i v).volumes.getD i 0 = v ∧
    ((mixerSetVolume s i v).tracks.getD i dTrack).player.volumeGain = v ∧
    playerDb ((mixerSetVolume s i v).tracks.getD i dTrack).player = gainToDb v ∧
    ((pageSetVolume ps i v).elements.getD i dElem).volume = v ∧
    ((pageSetVolume ps i v).elements.getD i dElem).player =
      ((ps.elements.getD i dElem).player.map fun pl =>
        { pl with volumeGain := v }) ∧
    (0 < v → dbToGain (gainToDb v) = (v : ℝ)) := by
  refine ⟨?_, ?_, ?_, ?_, ?_, fun hv0 => dbToGain_gainToDb hv0⟩
  · exact set_getD_of_lt s.volumes i v 0 hv
  · show ((listModify s.tracks i _).getD i dTrack).player.volumeGain = v
    rw [listModify_getD_of_lt _ _ _ _ ht]
  · show playerDb ((listModify s.tracks i _).getD i dTrack).player = gainToDb v
    rw [listModify_getD_of_lt _ _ _ _ ht]
    rfl
  · show ((listModify ps.elements i _).getD i dElem).volume = v
    rw [listModify_getD_of_lt _ _ _ _ hp]
  · show ((listModify ps.elements i _).getD i dElem).player = _
    rw [listModify_getD_of_lt _ _ _ _ hp]

/-- Claim C1, witness: the amended statement at the concrete one-track
states with out-of-range input `v = 2`. -/
theorem C1_witness :
    (mixerSetVolume (buildMixer ["a.mp3"] [elWind]) 0 2).volumes.getD 0 0 = 2 ∧
    ((mixerSetVolume (buildMixer ["a.mp3"] [elWind]) 0 2).tracks.getD 0
      dTrack).player.volumeGain = 2 ∧
    playerDb ((mixerSetVolume (buildMixer ["a.mp3"] [elWind]) 0 2).tracks.getD 0
      dTrack).player = gainToDb 2 ∧
    ((pageSetVolume (mixerPageMount ["Wind"] ["a.mp3"]) 0 2).elements.getD 0
      dElem).volume = 2 ∧
    ((pageSetVolume (mixerPageMount ["Wind"] ["a.mp3"]) 0 2).elements.getD 0
      dElem).player =
      (((mixerPageMount ["Wind"] ["a.mp3"]).elements.getD 0 dElem).player.map
        fun pl => { pl with volumeGain := 2 }) ∧
    (0 < (2 : ℚ) → dbToGain (gainToDb 2) = ((2 : ℚ) : ℝ)) := by
  exact C1_amended (buildMixer ["a.mp3"] [elWind]) (mixerPageMount ["Wind"] ["a.mp3"])
    0 2 (by decide) (by decide) (by decide)

/-- Claim C2, counterexample: `setPan(0, -2)` on the eager mixer stores pan
`-2` and writes `-2` to the live pan node — not `clamp(-2, -1, 1) = -1` —
refuting "the stored pan of track i and the effective pan applied to its
live pan node equal clamp(p, -1, 1)". -/
theorem C2_counterexample :
    (mixerSetPan (buildMixer ["a.mp3"] [elWind]) 0 (-2)).pans.getD 0 0 = -2 ∧
    ((mixerSetPan (buildMixer ["a.mp3"] [elWind]) 0 (-2)).tracks.getD 0
      dTrack).panner.pan = -2 ∧
    specClamp (-2) (-1) 1 = -1 ∧
    (mixerSetPan (buildMixer ["a.mp3"] [elWind]) 0 (-2)).pans.getD 0 0 ≠
      specClamp (-2) (-1) 1 := by decide

/-- Claim C2, amended: `setPan(i, p)` stores `p` exactly as given and
applies `p` directly to the live pan node — no clamping happens anywhere in
the engine (the `[-1, 1]` restriction exists only in the range slider's
`min`/`max` attributes).  This holds for both the eager mixer and the lazy
`MixerPage`. -/
theorem C2_amended (s : MixerState) (ps : PageSession) (i : ℕ) (p : ℚ)
    (hpn : i < s.pans.length) (ht : i < s.tracks.length)
    (hp : i < ps.elements.length) :
    (mixerSetPan s i p).pans.getD i 0 = p ∧
    ((mixerSetPan s i p).tracks.getD i dTrack).panner.pan = p ∧
    ((pageSetPan ps i p).elements.getD i dElem).pan = p ∧
    ((pageSetPan ps i p).elements.getD i dElem).panner =
      ((ps.elements.getD i dElem).panner.map fun pn => { pn with pan := p }) := by
  refine ⟨?_, ?_, ?_, ?_⟩
  · exact set_getD_of_lt s.pans i p 0 hpn
  · show ((listModify s.tracks i _).getD i dTrack).panner.pan = p
    rw [listModify_getD_of_lt _ _ _ _ ht]
  · show ((listModify ps.elements i _).getD i dElem).pan = p
    rw [listModify_getD_of_lt _ _ _ _ hp]
  · show ((listModify ps.elements i _).getD i dElem).panner = _
    rw [listModify_getD_of_lt _ _ _ _ hp]

/-- Claim C2, witness: the amended statement at the concrete one-track
states with out-of-range input `p = -2`. -/
theorem C2_witness :
    (mixerSetPan (buildMixer ["a.mp3"] [elWind]) 0 (-2)).pans.getD 0 0 = -2 ∧
    ((mixerSetPan (buildMixer ["a.mp3"] [elWind]) 0 (-2)).tracks.getD 0
      dTrack).panner.pan = -2 ∧
    ((pageSetPan (mixerPageMount ["Wind"] ["a.mp3"]) 0 (-2)).elements.getD 0
      dElem).pan = -2 ∧
    ((pageSetPan (mixerPageMount ["Wind"] ["a.mp3"]) 0 (-2)).elements.getD 0
      dElem).panner =
      (((mixerPageMount ["Wind"] ["a.mp3"]).elements.getD 0 dElem).panner.map
        fun pn => { pn with pan := -2 }) := by
  exact C2_amended (buildMixer ["a.mp3"] [elWind]) (mixerPageMount ["Wind"] ["a.mp3"])
    0 (-2) (by decide) (by decide) (by decide)

/-- Claim C3, counterexample: in `MixerPage`, mounting with 3 sound
elements and 2 audio URLs yields 3 tracks, not `min 3 2 = 2`; the third
track has no URL, and `togglePlayback` still instantiates a player for it
(bound to `undefined`), refuting "3 sound elements with 2 URLs yields
exactly 2 tracks, none with a missing URL". -/
theorem C3_counterexample :
    (mixerPageMount ["a", "b", "c"] ["u1", "u2"]).elements.length = 3 ∧
    (mixerPageMount ["a", "b", "c"] ["u1", "u2"]).elements.length ≠ min 3 2 ∧
    ((mixerPageMount ["a", "b", "c"] ["u1", "u2"]).elements.getD 2 dElem).url =
      none ∧
    ((pageToggle (mixerPageMount ["a", "b", "c"] ["u1", "u2"])).elements.countP
      fun e => e.player.isSome) = 3 ∧
    ((pageToggle (mixerPageMount ["a", "b", "c"] ["u1", "u2"])).elements.getD 2
      dElem).player =
      some { url := none, volumeGain := 0, playing := true, disposed := false,
             out := NodeRef.pannerOf 2 } := by decide

/-- Claim C3, amended: the eager mixer of `main.tsx` builds exactly
`min(|audioUrls|, |soundElements|)` tracks, pairing URL i with element i's
parameters by position; `MixerPage`, by contrast, creates one track per
sound element with no truncation, so elements beyond the URL list get a
missing (`undefined`) URL rather than being dropped. -/
theorem C3_amended (u : List String) (e : List SoundElement)
    (names urls : List String) (i j : ℕ)
    (hi : i < min u.length e.length) (hj : j < names.length) :
    (buildMixer u e).tracks.length = min u.length e.length ∧
    ((buildMixer u e).tracks.getD i dTrack).player.url = u.getD i "" ∧
    ((buildMixer u e).tracks.getD i dTrack).player.volumeGain =
      (e.getD i dSElem).volume ∧
    ((buildMixer u e).tracks.getD i dTrack).panner.pan = (e.getD i dSElem).pan ∧
    (mixerPageMount names urls).elements.length = names.length ∧
    ((mixerPageMount names urls).elements.getD j dElem).name = names.getD j "" ∧
    ((mixerPageMount names urls).elements.getD j dElem).url = urls[j]? := by
  have hie : i < e.length := lt_of_lt_of_le hi (min_le_right _ _)
  have hgd : (buildMixer u e).tracks.getD i dTrack =
      { player := { url := u.getD i "", loop := true,
                    volumeGain := (e.map fun el => el.volume).getD i 0,
                    playing := false, out := NodeRef.pannerOf i }
        panner := { pan := (e.map fun el => el.pan).getD i 0,
                    out := NodeRef.reverb } } := by
    rw [List.getD_eq_getElem?_getD, buildMixer_tracks_getElem? u e i hi]
    rfl
  have hpd : (mixerPageMount names urls).elements.getD j dElem =
      { name := names.getD j "", url := urls[j]?, player := none, panner := none,
        volume := 0, pan := 0 } := by
    show (mixerPageInit names urls).getD j dElem = _
    rw [List.getD_eq_getElem?_getD, mixerPageInit_getElem?,
      List.getElem?_eq_getElem hj, List.getD_eq_getElem names "" hj]
    rfl
  refine ⟨buildMixer_tracks_length u e, ?_, ?_, ?_, mixerPageInit_length names urls,
    ?_, ?_⟩
  · rw [hgd]
  · rw [hgd]
    exact map_getD_of_lt _ e i 0 dSElem hie
  · rw [hgd]
    exact map_getD_of_lt _ e i 0 dSElem hie
  · rw [hpd]
  · rw [hpd]

/-- Claim C3, witness: the amended statement at a 1-URL/1-element eager
mixer and a 3-element/2-URL `MixerPage`, read at the third element. -/
theorem C3_witness :
    (buildMixer ["x.mp3"] [elWind]).tracks.length =
      min (["x.mp3"] : List String).length ([elWind] : List SoundElement).length ∧
    ((buildMixer ["x.mp3"] [elWind]).tracks.getD 0 dTrack).player.url =
      (["x.mp3"] : List String).getD 0 "" ∧
    ((buildMixer ["x.mp3"] [elWind]).tracks.getD 0 dTrack).player.volumeGain =
      (([elWind] : List SoundElement).getD 0 dSElem).volume ∧
    ((buildMixer ["x.mp3"] [elWind]).tracks.getD 0 dTrack).panner.pan =
      (([elWind] : List SoundElement).getD 0 dSElem).pan ∧
    (mixerPageMount ["a", "b", "c"] ["u1", "u2"]).elements.length =
      (["a", "b", "c"] : List String).length ∧
    ((mixerPageMount ["a", "b", "c"] ["u1", "u2"]).elements.getD 2 dElem).name =
      (["a", "b", "c"] : List String).getD 2 "" ∧
    ((mixerPageMount ["a", "b", "c"] ["u1", "u2"]).elements.getD 2 dElem).url =
      (["u1", "u2"] : List String)[2]? := by
  exact C3_amended ["x.mp3"] [elWind] ["a", "b", "c"] ["u1", "u2"] 0 2
    (by decide) (by decide)

/-- Claim C4, counterexample: in `MixerPage` the instantiated source node
feeds its pan node, but the pan node is connected straight to the
destination (`new Tone.Panner(element.pan).toDestination()`); there is no
reverb in that graph, refuting "every track's source node is connected
through exactly one pan node into the single shared reverb node". -/
theorem C4_counterexample :
    ((pageToggle (mixerPageMount ["Wind"] ["a.mp3"])).elements.getD 0
      dElem).player =
      some { url := some "a.mp3", volumeGain := 0, playing := true,
             disposed := false, out := NodeRef.pannerOf 0 } ∧
    ((pageToggle (mixerPageMount ["Wind"] ["a.mp3"])).elements.getD 0
      dElem).panner =
      some { pan := 0, disposed := false, out := NodeRef.destination } ∧
    NodeRef.destination ≠ NodeRef.reverb := by decide

/-- Claim C4, amended: in the eager mixer of `main.tsx`, every track's
source node is connected through exactly its own pan node into the single
shared reverb, which feeds the master channel and then the destination;
this routing invariant holds after construction and is preserved by
`setVolume`, `setPan` and play/stop toggling.  In `MixerPage` each source
instead feeds its pan node, which connects directly to the destination with
no reverb. -/
theorem C4_amended (u : List String) (e : List SoundElement) (s : MixerState)
    (i : ℕ) (v p : ℚ) (hs : mixerRouted s = true) :
    mixerRouted (buildMixer u e) = true ∧
    mixerRouted (mixerSetVolume s i v) = true ∧
    mixerRouted (mixerSetPan s i p) = true ∧
    mixerRouted (mixerTogglePlay s) = true :=
  ⟨mixerRouted_build u e, mixerRouted_setVolume s i v hs,
    mixerRouted_setPan s i p hs, mixerRouted_toggle s hs⟩

/-- Claim C4, witness: the amended statement at a concrete routed
one-track state. -/
theorem C4_witness :
    mixerRouted (buildMixer ["x.mp3"] [elWind]) = true ∧
    mixerRouted (mixerSetVolume (buildMixer ["a.mp3"] [elWind]) 0 2) = true ∧
    mixerRouted (mixerSetPan (buildMixer ["a.mp3"] [elWind]) 0 (-2)) = true ∧
    mixerRouted (mixerTogglePlay (buildMixer ["a.mp3"] [elWind])) = true := by
  exact C4_amended ["x.mp3"] [elWind] (buildMixer ["a.mp3"] [elWind]) 0 2 (-2)
    (by decide)

/-- Claim C5, code bug: mounting `MixerPage` with one element and playing
once allocates 2 node handles (one player, one panner), but the teardown
cleanup iterates the `audioElements` snapshot captured by the mount
effect's closure — the initial empty array, since the effect has `[]` deps
and `audioElements` starts as `useState([])` — so it disposes nothing:
after unmount both handles are still live, and running the disposal again
still leaves 2, not the 0 the claim requires. -/
theorem C5_bug_eval :
    liveHandles (pageToggle (mixerPageMount ["Wind"] ["a.mp3"])).elements = 2 ∧
    (pageToggle (mixerPageMount ["Wind"] ["a.mp3"])).effectCaptured = [] ∧
    liveHandles (mixerPageUnmount (pageToggle
      (mixerPageMount ["Wind"] ["a.mp3"]))).elements = 2 ∧
    liveHandles (mixerPageUnmount (mixerPageUnmount (pageToggle
      (mixerPageMount ["Wind"] ["a.mp3"])))).elements = 2 := by decide

/-- Claim C6, counterexample: a player whose stored linear volume is `0`
holds decibel value `-Infinity` (encoded `none`), because
`Tone.gainToDb(0) = 20 * Math.log10(0) = -Infinity` — there is no finite
silence floor, refuting "v = 0 is mapped to a finite silence-floor value,
never to -Infinity". -/
theorem C6_counterexample :
    playerDb { url := "a.mp3", loop := true, volumeGain := 0, playing := false,
               out := NodeRef.pannerOf 0 } = none := by
  simp [playerDb, gainToDb]

/-- Claim C6, amended: for stored volume `v` with `0 < v ≤ 1` (indeed any
`v > 0`) the decibel value written to the track's node is exactly
`20 * log10 v`; stored volume `0` is written as `-Infinity` (`none`), not
as any finite silence floor. -/
theorem C6_amended (v : ℚ) (q : MPlayer) (hv : 0 < v) :
    playerDb { q with volumeGain := v } = some (20 * Real.logb 10 (v : ℝ)) ∧
    playerDb { q with volumeGain := 0 } = none := by
  constructor
  · simp [playerDb, gainToDb, hv]
  · simp [playerDb, gainToDb]

/-- Claim C6, witness: the amended statement at `v = 1` on the default
player. -/
theorem C6_witness :
    playerDb { dTrack.player with volumeGain := 1 } =
      some (20 * Real.logb 10 ((1 : ℚ) : ℝ)) ∧
    playerDb { dTrack.player with volumeGain := 0 } = none := by
  exact C6_amended 1 dTrack.player (by norm_num)

/-- Claim C7: on a `MixerPage` track with no live node pair, `setVolume`
and `setPan` update the stored values, and the next start
(`togglePlayback` from stopped) instantiates the node pair from exactly
those latest stored values: the new player is bound to the element's URL
with decibel volume `gainToDb v`, started, and the new pan node carries
`p`. -/
theorem C7_lazy_init (ps : PageSession) (i : ℕ) (v p : ℚ) (el : AudioElement)
    (hel : ps.elements[i]? = some el) (hnone : el.player = none)
    (hstop : ps.isPlaying = false) :
    ((pageSetVolume ps i v).elements.getD i dElem).volume = v ∧
    ((pageSetVolume ps i v).elements.getD i dElem).player = none ∧
    ((pageSetPan (pageSetVolume ps i v) i p).elements.getD i dElem).pan = p ∧
    ((pageToggle (pageSetPan (pageSetVolume ps i v) i p)).elements.getD i
      dElem).player =
      some { url := el.url, volumeGain := v, playing := true, disposed := false,
             out := NodeRef.pannerOf i } ∧
    (((pageToggle (pageSetPan (pageSetVolume ps i v) i p)).elements.getD i
      dElem).player.map pagePlayerDb) = some (gainToDb v) ∧
    ((pageToggle (pageSetPan (pageSetVolume ps i v) i p)).elements.getD i
      dElem).panner =
      some { pan := p, disposed := false, out := NodeRef.destination } := by
  have h1 : (pageSetVolume ps i v).elements[i]? =
      some { el with volume := v, player := none } := by
    show (listModify ps.elements i _)[i]? = _
    rw [listModify_getElem?_self, hel]
    simp [hnone]
  have h2 : (pageSetPan (pageSetVolume ps i v) i p).elements[i]? =
      some { el with
        volume := v
        player := none
        pan := p
        panner := el.panner.map fun pn => { pn with pan := p } } := by
    show (listModify (pageSetVolume ps i v).elements i _)[i]? = _
    rw [listModify_getElem?_self, h1]
    rfl
  have h3 : (pageToggle (pageSetPan (pageSetVolume ps i v) i p)).elements[i]? =
      some { el with
        volume := v
        pan := p
        player := some { url := el.url, volumeGain := v, playing := true,
                         disposed := false, out := NodeRef.pannerOf i }
        panner := some { pan := p, disposed := false,
                         out := NodeRef.destination } } := by
    have hstop2 : (pageSetPan (pageSetVolume ps i v) i p).isPlaying = false := hstop
    unfold pageToggle
    rw [hstop2]
    simp only [Bool.false_eq_true, if_false, List.getElem?_map, List.getElem?_enum, h2]
    rfl
  have hi : i < ps.elements.length := by
    by_contra hout
    rw [List.getElem?_eq_none (le_of_not_lt hout)] at hel
    cases hel
  refine ⟨?_, ?_, ?_, ?_, ?_, ?_⟩
  · rw [List.getD_eq_getElem?_getD, h1]
    rfl
  · rw [List.getD_eq_getElem?_getD, h1]
    rfl
  · rw [List.getD_eq_getElem?_getD, h2]
    rfl
  · rw [List.getD_eq_getElem?_getD, h3]
    rfl
  · rw [List.getD_eq_getElem?_getD, h3]
    rfl
  · rw [List.getD_eq_getElem?_getD, h3]
    rfl

/-- Claim C7, witness: the lazy-instantiation statement at the freshly
mounted one-track `MixerPage` with `setVolume(0, 2)` then `setPan(0, -1)`
then start. -/
theorem C7_witness :
    ((pageSetVolume (mixerPageMount ["Wind"] ["a.mp3"]) 0 2).elements.getD 0
      dElem).volume = 2 ∧
    ((pageSetVolume (mixerPageMount ["Wind"] ["a.mp3"]) 0 2).elements.getD 0
      dElem).player = none ∧
    ((pageSetPan (pageSetVolume (mixerPageMount ["Wind"] ["a.mp3"]) 0 2) 0
      (-1)).elements.getD 0 dElem).pan = -1 ∧
    ((pageToggle (pageSetPan (pageSetVolume (mixerPageMount ["Wind"] ["a.mp3"])
      0 2) 0 (-1))).elements.getD 0 dElem).player =
      some { url := some "a.mp3", volumeGain := 2, playing := true,
             disposed := false, out := NodeRef.pannerOf 0 } ∧
    (((pageToggle (pageSetPan (pageSetVolume (mixerPageMount ["Wind"] ["a.mp3"])
      0 2) 0 (-1))).elements.getD 0 dElem).player.map pagePlayerDb) =
      some (gainToDb 2) ∧
    ((pageToggle (pageSetPan (pageSetVolume (mixerPageMount ["Wind"] ["a.mp3"])
      0 2) 0 (-1))).elements.getD 0 dElem).panner =
      some { pan := -1, disposed := false, out := NodeRef.destination } := by
  exact C7_lazy_init (mixerPageMount ["Wind"] ["a.mp3"]) 0 2 (-1)
    { name := "Wind", url := some "a.mp3", player := none, panner := none,
      volume := 0, pan := 0 } (by decide) rfl rfl

/-- Claim C8: the transport starts out Stopped in both mixers; toggling
play on a zero-track graph still transitions to Playing; and the Playing
transition happens in the same toggle step that issues start to every
track of the graph (afterwards every live player is playing). -/
theorem C8_transport (s : MixerState) (ps : PageSession)
    (hs : s.isPlaying = false) (hp : ps.isPlaying = false) :
    (buildMixer [] []).isPlaying = false ∧
    (mixerPageMount [] []).isPlaying = false ∧
    (buildMixer [] []).tracks.length = 0 ∧
    (mixerPageMount [] []).elements.length = 0 ∧
    (mixerTogglePlay (buildMixer [] [])).isPlaying = true ∧
    (pageToggle (mixerPageMount [] [])).isPlaying = true ∧
    (mixerTogglePlay s).isPlaying = true ∧
    ((mixerTogglePlay s).tracks.all fun t => t.player.playing) = true ∧
    (pageToggle ps).isPlaying = true ∧
    ((pageToggle ps).elements.all elementPlaying) = true := by
  refine ⟨rfl, rfl, rfl, rfl, by decide, by decide, ?_,
    mixerToggle_all_playing s hs, ?_, pageToggle_all_playing ps hp⟩
  · simp [mixerTogglePlay, hs]
  · simp [pageToggle, hp]

/-- Claim C8, witness: the transport statement at concrete stopped
one-track states. -/
theorem C8_witness :
    (buildMixer [] []).isPlaying = false ∧
    (mixerPageMount [] []).isPlaying = false ∧
    (buildMixer [] []).tracks.length = 0 ∧
    (mixerPageMount [] []).elements.length = 0 ∧
    (mixerTogglePlay (buildMixer [] [])).isPlaying = true ∧
    (pageToggle (mixerPageMount [] [])).isPlaying = true ∧
    (mixerTogglePlay (buildMixer ["a.mp3"] [elWind])).isPlaying = true ∧
    ((mixerTogglePlay (buildMixer ["a.mp3"] [elWind])).tracks.all
      fun t => t.player.playing) = true ∧
    (pageToggle (mixerPageMount ["Wind"] ["a.mp3"])).isPlaying = true ∧
    ((pageToggle (mixerPageMount ["Wind"] ["a.mp3"])).elements.all
      elementPlaying) = true := by
  exact C8_transport (buildMixer ["a.mp3"] [elWind])
    (mixerPageMount ["Wind"] ["a.mp3"]) rfl rfl

/-- Claim C9 (frame): in both mixers, `setVolume(i, v)` touches only track
i's volume (stored value and player volume parameter) and `setPan(i, p)`
only track i's pan (stored value and pan parameter): every other track is
unchanged, track i's name, URL, loop and playing state are unchanged (the
record images below copy every other field), and the transport flag is
unchanged. -/
theorem C9_frame (s : MixerState) (ps : PageSession) (i j : ℕ) (v p : ℚ)
    (hj : j ≠ i) :
    (mixerSetVolume s i v).isPlaying = s.isPlaying ∧
    (mixerSetVolume s i v).pans = s.pans ∧
    (mixerSetVolume s i v).volumes[j]? = s.volumes[j]? ∧
    (mixerSetVolume s i v).tracks[j]? = s.tracks[j]? ∧
    (mixerSetVolume s i v).tracks[i]? =
      (s.tracks[i]?.map fun t =>
        { t with player := { t.player with volumeGain := v } }) ∧
    (mixerSetPan s i p).isPlaying = s.isPlaying ∧
    (mixerSetPan s i p).volumes = s.volumes ∧
    (mixerSetPan s i p).pans[j]? = s.pans[j]? ∧
    (mixerSetPan s i p).tracks[j]? = s.tracks[j]? ∧
    (mixerSetPan s i p).tracks[i]? =
      (s.tracks[i]?.map fun t =>
        { t with panner := { t.panner with pan := p } }) ∧
    (pageSetVolume ps i v).isPlaying = ps.isPlaying ∧
    (pageSetVolume ps i v).elements[j]? = ps.elements[j]? ∧
    (pageSetVolume ps i v).elements[i]? =
      (ps.elements[i]?.map fun e =>
        { e with
            volume := v
            player := e.player.map fun pl => { pl with volumeGain := v } }) ∧
    (pageSetPan ps i p).isPlaying = ps.isPlaying ∧
    (pageSetPan ps i p).elements[j]? = ps.elements[j]? ∧
    (pageSetPan ps i p).elements[i]? =
      (ps.elements[i]?.map fun e =>
        { e with
            pan := p
            panner := e.panner.map fun pn => { pn with pan := p } }) := by
  refine ⟨rfl, rfl, ?_, ?_, ?_, rfl, rfl, ?_, ?_, ?_, rfl, ?_, ?_, rfl, ?_, ?_⟩
  · exact List.getElem?_set_ne (Ne.symm hj)
  · exact listModify_getElem?_ne s.tracks i j _ hj
  · exact listModify_getElem?_self s.tracks i _
  · exact List.getElem?_set_ne (Ne.symm hj)
  · exact listModify_getElem?_ne s.tracks i j _ hj
  · exact listModify_getElem?_self s.tracks i _
  · exact listModify_getElem?_ne ps.elements i j _ hj
  · exact listModify_getElem?_self ps.elements i _
  · exact listModify_getElem?_ne ps.elements i j _ hj
  · exact listModify_getElem?_self ps.elements i _

/-- Claim C9, witness: the frame statement at concrete two-track states,
`i = 0`, `j = 1`. -/
theorem C9_witness :
    (mixerSetVolume mixTwo 0 2).isPlaying = mixTwo.isPlaying ∧
    (mixerSetVolume mixTwo 0 2).pans = mixTwo.pans ∧
    (mixerSetVolume mixTwo 0 2).volumes[1]? = mixTwo.volumes[1]? ∧
    (mixerSetVolume mixTwo 0 2).tracks[1]? = mixTwo.tracks[1]? ∧
    (mixerSetVolume mixTwo 0 2).tracks[0]? =
      (mixTwo.tracks[0]?.map fun t =>
        { t with player := { t.player with volumeGain := 2 } }) ∧
    (mixerSetPan mixTwo 0 (-2)).isPlaying = mixTwo.isPlaying ∧
    (mixerSetPan mixTwo 0 (-2)).volumes = mixTwo.volumes ∧
    (mixerSetPan mixTwo 0 (-2)).pans[1]? = mixTwo.pans[1]? ∧
    (mixerSetPan mixTwo 0 (-2)).tracks[1]? = mixTwo.tracks[1]? ∧
    (mixerSetPan mixTwo 0 (-2)).tracks[0]? =
      (mixTwo.tracks[0]?.map fun t =>
        { t with panner := { t.panner with pan := -2 } }) ∧
    (pageSetVolume pageTwo 0 2).isPlaying = pageTwo.isPlaying ∧
    (pageSetVolume pageTwo 0 2).elements[1]? = pageTwo.elements[1]? ∧
    (pageSetVolume pageTwo 0 2).elements[0]? =
      (pageTwo.elements[0]?.map fun e =>
        { e with
            volume := 2
            player := e.player.map fun pl => { pl with volumeGain := 2 } }) ∧
    (pageSetPan pageTwo 0 (-2)).isPlaying = pageTwo.isPlaying ∧
    (pageSetPan pageTwo 0 (-2)).elements[1]? = pageTwo.elements[1]? ∧
    (pageSetPan pageTwo 0 (-2)).elements[0]? =
      (pageTwo.elements[0]?.map fun e =>
        { e with
            pan := -2
            panner := e.panner.map fun pn => { pn with pan := -2 } }) := by
  exact C9_frame mixTwo pageTwo 0 1 2 (-2) (by decide)

/-- Claim C10: every source node built by the eager mix-graph builder of
`main.tsx` is constructed with `loop: true`, and toggling playback keeps
every player looping, so a started track repeats rather than playing
once. -/
theorem C10_loop (u : List String) (e : List SoundElement) :
    ((buildMixer u e).tracks.all fun t => t.player.loop) = true ∧
    ((mixerTogglePlay (buildMixer u e)).tracks.all fun t => t.player.loop) = true := by
  constructor
  · rw [List.all_eq_true]
    intro t ht
    exact buildMixer_loop u e ht
  · have hb : (mixerTogglePlay (buildMixer u e)).tracks =
        (buildMixer u e).tracks.map fun t =>
          { t with player := { t.player with playing := true } } := rfl
    rw [hb, List.all_eq_true]
    intro t ht
    rw [List.mem_map] at ht
    obtain ⟨t0, ht0, rfl⟩ := ht
    show t0.player.loop = true
    exact buildMixer_loop u e ht0

end Ambiance
